import Mathlib

/-!
Verification of the filter-to-query compiler and paginated execution engine
of the Texas Treasury query dashboard (`query_utils.py`).

The Python functions are shallowly embedded:

* filter values (Python scalars and lists) become the inductive `Value`;
* the caller-supplied filter dict becomes the structure `Filters`, one
  `Option Value` per key the code reads via `filters.get(...)`;
* query text is a `String`; the SQLAlchemy `params` dict, whose keys are
  pairwise distinct across the filter blocks, becomes an insertion-ordered
  association list `List (String × Value)`;
* the database is modelled by the ordered list of rows matching the compiled
  query: executing the query with `LIMIT l OFFSET o` returns
  `(store.drop o).take l`, and a store-side failure is modelled by the
  `Conn.err` constructor.
-/

namespace QueryUtils

/-- A Python value that may appear as a filter value: a string, an integer,
or a (possibly nested) list of such values. -/
inductive Value where
  | vStr : String → Value
  | vInt : Int → Value
  | vList : List Value → Value

/-- Python truthiness of a value: empty strings, zero and empty lists are
falsy, everything else is truthy. -/
def Value.truthy : Value → Bool
  | .vStr s => s != ""
  | .vInt n => n != 0
  | .vList l => !l.isEmpty

/-- Truthiness of `filters.get(key)`: `None` (a missing key) is falsy. -/
def getTruthy : Option Value → Bool
  | none => false
  | some v => v.truthy

mutual
/-- Python `repr` of a value (used by `str` on list elements). -/
def pyRepr : Value → String
  | .vStr s => "'" ++ s ++ "'"
  | .vInt n => toString n
  | .vList l => "[" ++ pyReprList l ++ "]"

/-- Comma-separated `repr`s of the elements of a list. -/
def pyReprList : List Value → String
  | [] => ""
  | [v] => pyRepr v
  | v :: vs => pyRepr v ++ ", " ++ pyReprList vs
end

/-- Python `str()` of a value. -/
def pyStr : Value → String
  | .vStr s => s
  | .vInt n => toString n
  | .vList l => "[" ++ pyReprList l ++ "]"

/-- Python `s[-2:]`: the last two characters of `s`, or all of `s` when it is
shorter than two characters. -/
def lastTwo (s : String) : String :=
  s.drop (s.length - 2)

/-- The filter dict passed to `add_filters_to_query`, with one optional entry
per key the function reads. A missing key reads as `none`. -/
structure Filters where
  fiscal_year_start : Option Value := none
  fiscal_year_end : Option Value := none
  fiscal_month_start : Option Value := none
  fiscal_month_end : Option Value := none
  agency : Option Value := none
  vendor : Option Value := none
  appropriation_object : Option Value := none
  category : Option Value := none
  procurement_method : Option Value := none
  status : Option Value := none
  subject : Option Value := none

/-- One `if filters.get(...)` block of `add_filters_to_query`: a guard on the
filter dict, the WHERE-clause fragments it appends, and the parameter
entries it binds. -/
structure FilterRule where
  guard : Filters → Bool
  conds : List String
  bind : Filters → List (String × Value)

/-- The five filter blocks of the `"Payment Information"` branch of
`add_filters_to_query` (`query_utils.py` lines 86–115), in source order. -/
def paymentRules : List FilterRule :=
  [ { guard := fun f => getTruthy f.fiscal_year_start && getTruthy f.fiscal_year_end,
      conds := ["p.fiscal_year BETWEEN :fiscal_year_start AND :fiscal_year_end"],
      bind := fun f =>
        [("fiscal_year_start", Value.vStr (lastTwo (pyStr (f.fiscal_year_start.getD (Value.vStr ""))))),
         ("fiscal_year_end", Value.vStr (lastTwo (pyStr (f.fiscal_year_end.getD (Value.vStr "")))))] },
    { guard := fun f => getTruthy f.fiscal_month_start && getTruthy f.fiscal_month_end,
      conds := ["p.fiscal_month BETWEEN :fiscal_month_start AND :fiscal_month_end"],
      bind := fun f =>
        [("fiscal_month_start", f.fiscal_month_start.getD (Value.vStr "")),
         ("fiscal_month_end", f.fiscal_month_end.getD (Value.vStr ""))] },
    { guard := fun f => getTruthy f.agency,
      conds := ["LOWER(p.agency_title) = LOWER(:agency)"],
      bind := fun f => [("agency", f.agency.getD (Value.vStr ""))] },
    { guard := fun f => getTruthy f.vendor,
      conds := ["LOWER(p.vendor_name) = LOWER(:vendor)"],
      bind := fun f => [("vendor", f.vendor.getD (Value.vStr ""))] },
    { guard := fun f => getTruthy f.appropriation_object,
      conds := ["p.object_title = :appropriation_object"],
      bind := fun f => [("appropriation_object", f.appropriation_object.getD (Value.vStr ""))] } ]

/-- The eight filter blocks of the `"Contract Information"` branch of
`add_filters_to_query` (`query_utils.py` lines 117–161), in source order. -/
def contractRules : List FilterRule :=
  [ { guard := fun f => getTruthy f.fiscal_year_start && getTruthy f.fiscal_year_end,
      conds := ["c.fiscal_year BETWEEN :fiscal_year_start AND :fiscal_year_end"],
      bind := fun f =>
        [("fiscal_year_start", Value.vStr (lastTwo (pyStr (f.fiscal_year_start.getD (Value.vStr ""))))),
         ("fiscal_year_end", Value.vStr (lastTwo (pyStr (f.fiscal_year_end.getD (Value.vStr "")))))] },
    { guard := fun f => getTruthy f.fiscal_month_start && getTruthy f.fiscal_month_end,
      conds := ["c.fm BETWEEN :fiscal_month_start AND :fiscal_month_end"],
      bind := fun f =>
        [("fiscal_month_start", f.fiscal_month_start.getD (Value.vStr "")),
         ("fiscal_month_end", f.fiscal_month_end.getD (Value.vStr ""))] },
    { guard := fun f => getTruthy f.agency,
      conds := ["LOWER(c.agency) = LOWER(:agency)"],
      bind := fun f => [("agency", f.agency.getD (Value.vStr ""))] },
    { guard := fun f => getTruthy f.vendor,
      conds := ["LOWER(c.vendor) = LOWER(:vendor)"],
      bind := fun f => [("vendor", f.vendor.getD (Value.vStr ""))] },
    { guard := fun f => getTruthy f.category,
      conds := ["c.category = :category"],
      bind := fun f => [("category", f.category.getD (Value.vStr ""))] },
    { guard := fun f => getTruthy f.procurement_method,
      conds := ["c.procurement_method = :procurement_method"],
      bind := fun f => [("procurement_method", f.procurement_method.getD (Value.vStr ""))] },
    { guard := fun f => getTruthy f.status,
      conds := ["c.status = :status"],
      bind := fun f => [("status", f.status.getD (Value.vStr ""))] },
    { guard := fun f => getTruthy f.subject,
      conds := ["c.subject = :subject"],
      bind := fun f => [("subject", f.subject.getD (Value.vStr ""))] } ]

/-- The filter blocks run for a given `table_choice`: the payment branch, the
contract branch, or (for any other choice) no blocks at all. -/
def rulesFor (table_choice : String) : List FilterRule :=
  if table_choice = "Payment Information" then paymentRules
  else if table_choice = "Contract Information" then contractRules
  else []

/-- Run the filter blocks in order over an accumulator holding the
`where_conditions` list and the `params` dict built so far. -/
def applyRules : List FilterRule → Filters → List String × List (String × Value) →
    List String × List (String × Value)
  | [], _, acc => acc
  | r :: rs, f, acc =>
      applyRules rs f (if r.guard f then (acc.1 ++ r.conds, acc.2 ++ r.bind f) else acc)

/-- The WHERE-clause fragments contributed by a list of filter blocks. -/
def condsOf : List FilterRule → Filters → List String
  | [], _ => []
  | r :: rs, f => (if r.guard f then r.conds else []) ++ condsOf rs f

/-- The parameter entries contributed by a list of filter blocks. -/
def bindsOf : List FilterRule → Filters → List (String × Value)
  | [], _ => []
  | r :: rs, f => (if r.guard f then r.bind f else []) ++ bindsOf rs f

/-- Embedding of `add_filters_to_query` (`query_utils.py` lines 46–169):
build the `where_conditions` list and extend `params` block by block, then
append `" WHERE "` and the `" AND "`-joined conditions to the query text
when any condition was produced. -/
def add_filters_to_query (query : String) (filters : Filters)
    (params : List (String × Value)) (table_choice : String) :
    String × List (String × Value) :=
  let res := applyRules (rulesFor table_choice) filters ([], params)
  (if res.1.isEmpty then query
   else query ++ " WHERE " ++ String.intercalate " AND " res.1, res.2)

/-- Embedding of `build_base_query` (`query_utils.py` lines 10–44): the
triple-quoted base SELECT for the chosen table, and an empty params dict. -/
def build_base_query (table_choice : String) : String × List (String × Value) :=
  if table_choice = "Payment Information" then
    ("\n            SELECT p.*\n            FROM paymentinformation p\n        ", [])
  else
    ("\n            SELECT c.*\n            FROM contractinfo c\n        ", [])

/-- The compilation pipeline of `get_filtered_data` / `get_complete_filtered_data`
(`query_utils.py` lines 382–387 and 484–489): base query, then filters. -/
def compiled (filters : Filters) (table_choice : String) :
    String × List (String × Value) :=
  let qp := build_base_query table_choice
  add_filters_to_query qp.1 filters qp.2 table_choice

/-- The presence pattern of a filter dict: for each key the code reads, whether
`filters.get(key)` is present and truthy. -/
def presencePattern (f : Filters) : List Bool :=
  [getTruthy f.fiscal_year_start, getTruthy f.fiscal_year_end,
   getTruthy f.fiscal_month_start, getTruthy f.fiscal_month_end,
   getTruthy f.agency, getTruthy f.vendor, getTruthy f.appropriation_object,
   getTruthy f.category, getTruthy f.procurement_method,
   getTruthy f.status, getTruthy f.subject]

/-- Characters before the first occurrence of the (non-empty) separator, or
`none` when the separator does not occur: the head of Python's
`s.split(sep)` together with the `sep in s` test. -/
def splitHead (sep : List Char) : List Char → Option (List Char)
  | [] => none
  | c :: cs =>
      if sep.isPrefixOf (c :: cs) then some []
      else
        match splitHead sep cs with
        | some pre => some (c :: pre)
        | none => none

/-- Result of `base_query.split("LIMIT")[0].strip()` guarded by
`"LIMIT" in base_query` (`query_utils.py` lines 322–324 and 431–434): the
text before the first `LIMIT`, trimmed, or the unchanged text when no
`LIMIT` occurs. -/
def stripLimit (base : String) : String :=
  match splitHead "LIMIT".toList base.toList with
  | some pre => (String.mk pre).trim
  | none => base

/-- The paginated query text built by `execute_query` (`query_utils.py`
line 330): the LIMIT-stripped base followed by `LIMIT page_size+1 OFFSET
(page-1)*page_size`. -/
def paginated_query (base : String) (page_size page : Nat) : String :=
  stripLimit base ++ " LIMIT " ++ toString (page_size + 1) ++
    " OFFSET " ++ toString ((page - 1) * page_size)

/-- Executing a query with `LIMIT limit OFFSET offset` against the store,
modelled as the ordered list of rows matching the query without pagination. -/
def fetchLimitOffset (store : List α) (limit offset : Nat) : List α :=
  (store.drop offset).take limit

/-- Embedding of the row logic of `execute_query` (`query_utils.py` lines
326–355): fetch `page_size + 1` rows at offset `(page-1)*page_size`, set
`has_more` when more than `page_size` rows came back, and drop the extra
probe row in that case. -/
def execute_query (store : List α) (page_size page : Nat) :
    List α × Bool :=
  let offset := (page - 1) * page_size
  let results := fetchLimitOffset store (page_size + 1) offset
  let has_more : Bool := page_size < results.length
  (if has_more then results.dropLast else results, has_more)

/-- Embedding of the row logic of `get_complete_data` (`query_utils.py`
lines 429–457): strip any LIMIT and execute without pagination, returning
every matching row in order. -/
def get_complete_data (store : List α) : List α :=
  store

/-- A connection on which the query either succeeds against a store or
raises on execution. -/
inductive Conn (α : Type) where
  | ok : List α → Conn α
  | err : String → Conn α

/-- The `execute_query` call including its exception handler
(`query_utils.py` lines 357–363): a raising execution is caught, logged and
turned into `([], False)`. -/
def execute_query_on (conn : Conn α) (page_size page : Nat) :
    List α × Bool :=
  match conn with
  | .ok store => execute_query store page_size page
  | .err _ => ([], false)

/-- The `get_complete_data` call including its exception handler
(`query_utils.py` lines 459–465): a raising execution is caught, logged and
turned into `[]`. -/
def get_complete_data_on (conn : Conn α) : List α :=
  match conn with
  | .ok store => get_complete_data store
  | .err _ => []

/-- Page-by-page iteration of `execute_query` starting at the given page,
with enough fuel to reach the page whose `has_more` is false. -/
def fetchAllAux (page_size : Nat) (store : List α) : Nat → Nat → List α
  | 0, _ => []
  | fuel + 1, page =>
      let res := execute_query store page_size page
      if res.2 then res.1 ++ fetchAllAux page_size store fuel (page + 1)
      else res.1

/-- The in-order concatenation of the `execute_query` pages 1, 2, …, up to
and including the first page whose `has_more` is false. -/
def fetchAllPages (page_size : Nat) (store : List α) : List α :=
  fetchAllAux page_size store (store.length + 1) 1

theorem applyRules_eq (rules : List FilterRule) (f : Filters)
    (acc : List String × List (String × Value)) :
    applyRules rules f acc = (acc.1 ++ condsOf rules f, acc.2 ++ bindsOf rules f) := by
  induction rules generalizing acc with
  | nil => simp [applyRules, condsOf, bindsOf]
  | cons r rs ih =>
      simp only [applyRules, condsOf, bindsOf]
      by_cases h : r.guard f = true
      · simp [h, ih, List.append_assoc]
      · simp [h, ih]

theorem add_filters_to_query_eq (q : String) (f : Filters)
    (p : List (String × Value)) (t : String) :
    add_filters_to_query q f p t =
      (if (condsOf (rulesFor t) f).isEmpty then q
       else q ++ " WHERE " ++ String.intercalate " AND " (condsOf (rulesFor t) f),
       p ++ bindsOf (rulesFor t) f) := by
  simp [add_filters_to_query, applyRules_eq]

theorem length_fetchLimitOffset (store : List α) (l o : Nat) :
    (fetchLimitOffset store l o).length = min l (store.length - o) := by
  simp [fetchLimitOffset]

theorem execute_query_data (store : List α) (P n : Nat) :
    (execute_query store P n).1 = (store.drop ((n - 1) * P)).take P := by
  simp only [execute_query, fetchLimitOffset]
  by_cases h : P < ((store.drop ((n - 1) * P)).take (P + 1)).length
  · have hlen : ((store.drop ((n - 1) * P)).take (P + 1)).length = P + 1 := by
      have := List.length_take (P + 1) (store.drop ((n - 1) * P))
      omega
    rw [decide_eq_true h]
    simp only [if_true]
    rw [List.dropLast_eq_take, hlen]
    simp [List.take_take]
  · have hle : (store.drop ((n - 1) * P)).length ≤ P := by
      have := List.length_take (P + 1) (store.drop ((n - 1) * P))
      omega
    rw [decide_eq_false h]
    simp only [Bool.false_eq_true, if_false]
    rw [List.take_of_length_le hle, List.take_of_length_le (le_trans hle (Nat.le_succ P))]

theorem execute_query_hasMore (store : List α) (P n : Nat) (hn : 1 ≤ n) :
    (execute_query store P n).2 = true ↔ n * P < store.length := by
  have hoff : (n - 1) * P + P = n * P := by
    cases n with
    | zero => omega
    | succ m => simp [Nat.succ_sub_one, Nat.succ_mul]
  simp only [execute_query, length_fetchLimitOffset, decide_eq_true_eq, lt_min_iff]
  constructor
  · rintro ⟨-, h⟩
    omega
  · intro h
    exact ⟨Nat.lt_succ_self P, by omega⟩

theorem execute_query_len_le (store : List α) (P n : Nat) :
    (execute_query store P n).1.length ≤ P := by
  rw [execute_query_data]
  simp

theorem fetchAllAux_eq (P : Nat) (hP : 0 < P) (store : List α) :
    ∀ fuel page, 1 ≤ page → store.length + 1 ≤ fuel + (page - 1) * P →
      fetchAllAux P store fuel page = store.drop ((page - 1) * P) := by
  intro fuel
  induction fuel with
  | zero =>
      intro page _ hfuel
      have : store.length ≤ (page - 1) * P := by omega
      simp [fetchAllAux, List.drop_eq_nil_of_le this]
  | succ fuel ih =>
      intro page hpage hfuel
      have hoff : (page - 1) * P + P = page * P := by
        cases page with
        | zero => omega
        | succ m => simp [Nat.succ_sub_one, Nat.succ_mul]
      simp only [fetchAllAux]
      by_cases h : (execute_query store P page).2 = true
      · rw [if_pos h, execute_query_data]
        have hmore : page * P < store.length := (execute_query_hasMore store P page hpage).mp h
        have htail : fetchAllAux P store fuel (page + 1) = store.drop (page * P) := by
          have : (page + 1 - 1) * P = page * P := by simp
          rw [ih (page + 1) (by omega) (by rw [this]; omega), this]
        rw [htail]
        have hdd : store.drop (page * P) = (store.drop ((page - 1) * P)).drop P := by
          rw [List.drop_drop]
          congr 1
          omega
        rw [hdd, List.take_append_drop]
      · rw [if_neg h, execute_query_data]
        have hle : store.length ≤ page * P := by
          by_contra hc
          exact h ((execute_query_hasMore store P page hpage).mpr (by omega))
        refine List.take_of_length_le ?_
        simp only [List.length_drop]
        omega

theorem fetchAllPages_eq (P : Nat) (hP : 0 < P) (store : List α) :
    fetchAllPages P store = store := by
  have := fetchAllAux_eq P hP store (store.length + 1) 1 le_rfl (by simp)
  simpa [fetchAllPages] using this

theorem condsOf_congr (rules : List FilterRule) (f1 f2 : Filters)
    (h : ∀ r ∈ rules, r.guard f1 = r.guard f2) :
    condsOf rules f1 = condsOf rules f2 := by
  induction rules with
  | nil => rfl
  | cons r rs ih =>
      simp only [condsOf]
      rw [h r (List.mem_cons_self r rs),
        ih (fun r' hr' => h r' (List.mem_cons_of_mem r hr'))]

theorem rules_ext (rules : List FilterRule) (f g : Filters)
    (h : ∀ r ∈ rules, r.guard f = r.guard g ∧
      (r.guard f = true → r.bind f = r.bind g)) :
    condsOf rules f = condsOf rules g ∧ bindsOf rules f = bindsOf rules g := by
  induction rules with
  | nil => exact ⟨rfl, rfl⟩
  | cons r rs ih =>
      obtain ⟨hg, hb⟩ := h r (List.mem_cons_self r rs)
      obtain ⟨ihc, ihb⟩ := ih (fun r' hr' => h r' (List.mem_cons_of_mem r hr'))
      refine ⟨by simp only [condsOf, hg, ihc], ?_⟩
      simp only [bindsOf, ihb, hg]
      by_cases hgf : r.guard g = true
      · rw [if_pos hgf, if_pos hgf, hb (by rw [hg]; exact hgf)]
      · rw [if_neg hgf, if_neg hgf]

/-- C2: for page number `n ≥ 1` and page size `P`, `execute_query` issues the
query with `LIMIT P+1 OFFSET (n-1)*P`, returns at most `P` rows (the slice
`[(n-1)*P, n*P)` of the store, with the extra probe row stripped), and reports
`has_more` exactly when the probe fetch of `P+1` rows returned more than `P`
rows, equivalently when the store holds more than `n*P` matching rows. -/
theorem execute_query_pagination_correct (α : Type) (store : List α)
    (P n : Nat) (base : String)
    (hbase : splitHead "LIMIT".toList base.toList = none) (hn : 1 ≤ n) :
    paginated_query base P n
      = base ++ " LIMIT " ++ toString (P + 1) ++ " OFFSET " ++ toString ((n - 1) * P)
    ∧ (execute_query store P n).1 = (store.drop ((n - 1) * P)).take P
    ∧ (execute_query store P n).1.length ≤ P
    ∧ ((execute_query store P n).2 = true ↔
        P < (fetchLimitOffset store (P + 1) ((n - 1) * P)).length)
    ∧ ((execute_query store P n).2 = true ↔ n * P < store.length) := by
  refine ⟨?_, execute_query_data store P n, execute_query_len_le store P n, ?_,
    execute_query_hasMore store P n hn⟩
  · simp only [paginated_query, stripLimit, String.toList] at hbase ⊢
    rw [hbase]
  · simp [execute_query]

theorem witness_execute_query_pagination :
    splitHead "LIMIT".toList ("SELECT p.* FROM paymentinformation p").toList = none
    ∧ 1 ≤ 2
    ∧ (paginated_query "SELECT p.* FROM paymentinformation p" 2 2
        = "SELECT p.* FROM paymentinformation p" ++ " LIMIT " ++ toString (2 + 1)
          ++ " OFFSET " ++ toString ((2 - 1) * 2)
      ∧ (execute_query [0, 1, 2, 3, 4] 2 2).1 = (([0, 1, 2, 3, 4].drop ((2 - 1) * 2)).take 2 : List Nat)
      ∧ (execute_query ([0, 1, 2, 3, 4] : List Nat) 2 2).1.length ≤ 2
      ∧ ((execute_query ([0, 1, 2, 3, 4] : List Nat) 2 2).2 = true ↔
          2 < (fetchLimitOffset ([0, 1, 2, 3, 4] : List Nat) (2 + 1) ((2 - 1) * 2)).length)
      ∧ ((execute_query ([0, 1, 2, 3, 4] : List Nat) 2 2).2 = true ↔
          2 * 2 < ([0, 1, 2, 3, 4] : List Nat).length)) :=
  ⟨by decide, by decide,
    execute_query_pagination_correct Nat [0, 1, 2, 3, 4] 2 2
      "SELECT p.* FROM paymentinformation p" (by decide) (by decide)⟩

/-- C3 counterexample: a fetch whose underlying execution raises returns
`([], false)` from `execute_query` and `[]` from `get_complete_data`,
character-for-character the same results as a successful query over an empty
store — no error is surfaced, refuting the claim. -/
theorem error_result_indistinguishable_counterexample :
    execute_query_on (Conn.err "malformed query" : Conn Nat) 150 1 = ([], false)
    ∧ execute_query_on (Conn.ok ([] : List Nat)) 150 1 = ([], false)
    ∧ get_complete_data_on (Conn.err "malformed query" : Conn Nat) = []
    ∧ get_complete_data_on (Conn.ok ([] : List Nat)) = [] := by
  refine ⟨rfl, ?_, rfl, rfl⟩
  simp [execute_query_on, execute_query, fetchLimitOffset]

/-- C3 as amended: on query-execution failure `execute_query` catches the
exception, logs it, and returns `([], false)`, and `get_complete_data`
returns `[]` — identical to the results of a successful query with no
matching rows, so the failure is not distinguishable by the caller. -/
theorem error_result_swallowed (α : Type) (e : String) (P n : Nat) :
    execute_query_on (Conn.err e : Conn α) P n = ([], false)
    ∧ get_complete_data_on (Conn.err e : Conn α) = []
    ∧ execute_query_on (Conn.ok ([] : List α)) P n = ([], false)
    ∧ get_complete_data_on (Conn.ok ([] : List α)) = [] := by
  refine ⟨rfl, rfl, ?_, rfl⟩
  simp [execute_query_on, execute_query, fetchLimitOffset]

/-- C10: over an unchanged store, `get_complete_data` returns exactly the
store's matching rows — the same number of records, no duplicates and no
gaps — and equals the in-order concatenation of the `execute_query` pages
for page numbers 1, 2, … until `has_more` is false. -/
theorem get_complete_data_equals_concat_pages (α : Type) (store : List α)
    (P : Nat) (hP : 0 < P) :
    get_complete_data store = store
    ∧ (get_complete_data store).length = store.length
    ∧ get_complete_data store = fetchAllPages P store :=
  ⟨rfl, rfl, (fetchAllPages_eq P hP store).symm⟩

theorem witness_get_complete_data_concat :
    0 < 2
    ∧ (get_complete_data ([10, 20, 30] : List Nat) = [10, 20, 30]
      ∧ (get_complete_data ([10, 20, 30] : List Nat)).length = ([10, 20, 30] : List Nat).length
      ∧ get_complete_data ([10, 20, 30] : List Nat) = fetchAllPages 2 [10, 20, 30]) :=
  ⟨by decide, get_complete_data_equals_concat_pages Nat [10, 20, 30] 2 (by decide)⟩

theorem payment_guards_eq (f1 f2 : Filters)
    (h : presencePattern f1 = presencePattern f2) :
    ∀ r ∈ paymentRules, r.guard f1 = r.guard f2 := by
  simp only [presencePattern, List.cons.injEq, and_true] at h
  obtain ⟨h1, h2, h3, h4, h5, h6, h7, h8, h9, h10, h11⟩ := h
  intro r hr
  simp only [paymentRules, List.mem_cons, List.not_mem_nil, or_false] at hr
  rcases hr with rfl | rfl | rfl | rfl | rfl <;>
    simp only [h1, h2, h3, h4, h5, h6, h7, h8, h9, h10, h11]

theorem contract_guards_eq (f1 f2 : Filters)
    (h : presencePattern f1 = presencePattern f2) :
    ∀ r ∈ contractRules, r.guard f1 = r.guard f2 := by
  simp only [presencePattern, List.cons.injEq, and_true] at h
  obtain ⟨h1, h2, h3, h4, h5, h6, h7, h8, h9, h10, h11⟩ := h
  intro r hr
  simp only [contractRules, List.mem_cons, List.not_mem_nil, or_false] at hr
  rcases hr with rfl | rfl | rfl | rfl | rfl | rfl | rfl | rfl <;>
    simp only [h1, h2, h3, h4, h5, h6, h7, h8, h9, h10, h11]

/-- C1: the query text returned by `add_filters_to_query` depends only on
which filter keys are present and truthy, never on the filter values: two
calls with the same presence pattern but arbitrarily different values yield
character-for-character identical query text, for every base query, initial
params dict and table choice. -/
theorem add_filters_text_depends_only_on_presence (f1 f2 : Filters)
    (q : String) (p : List (String × Value)) (t : String)
    (h : presencePattern f1 = presencePattern f2) :
    (add_filters_to_query q f1 p t).1 = (add_filters_to_query q f2 p t).1 := by
  have hc : condsOf (rulesFor t) f1 = condsOf (rulesFor t) f2 := by
    apply condsOf_congr
    by_cases ht1 : t = "Payment Information"
    · simp only [rulesFor, if_pos ht1]
      exact payment_guards_eq f1 f2 h
    · by_cases ht2 : t = "Contract Information"
      · simp only [rulesFor, if_neg ht1, if_pos ht2]
        exact contract_guards_eq f1 f2 h
      · simp only [rulesFor, if_neg ht1, if_neg ht2]
        intro r hr
        exact absurd hr (List.not_mem_nil r)
  rw [add_filters_to_query_eq, add_filters_to_query_eq, hc]

/-- Two filter dicts with the same keys present but different values. -/
def filtersACME : Filters :=
  { agency := some (Value.vStr "ACME"), vendor := some (Value.vStr "Dell Inc.") }

/-- The same presence pattern as `filtersACME`, with other values. -/
def filtersZenith : Filters :=
  { agency := some (Value.vStr "Zenith Corp"), vendor := some (Value.vStr "IBM") }

theorem witness_add_filters_text_presence :
    presencePattern filtersACME = presencePattern filtersZenith
    ∧ (add_filters_to_query "Q" filtersACME [] "Payment Information").1
        = (add_filters_to_query "Q" filtersZenith [] "Payment Information").1 :=
  ⟨by decide,
    add_filters_text_depends_only_on_presence filtersACME filtersZenith
      "Q" [] "Payment Information" (by decide)⟩

/-- The logical filter fields the compiler reads. -/
inductive FilterField where
  | fiscal_year_start | fiscal_year_end
  | fiscal_month_start | fiscal_month_end
  | agency | vendor | appropriation_object
  | category | procurement_method | status | subject

/-- Read one logical field of the filter dict. -/
def Filters.getF (f : Filters) : FilterField → Option Value
  | .fiscal_year_start => f.fiscal_year_start
  | .fiscal_year_end => f.fiscal_year_end
  | .fiscal_month_start => f.fiscal_month_start
  | .fiscal_month_end => f.fiscal_month_end
  | .agency => f.agency
  | .vendor => f.vendor
  | .appropriation_object => f.appropriation_object
  | .category => f.category
  | .procurement_method => f.procurement_method
  | .status => f.status
  | .subject => f.subject

/-- Replace one logical field of the filter dict. -/
def Filters.setF (f : Filters) : FilterField → Option Value → Filters
  | .fiscal_year_start, v => { f with fiscal_year_start := v }
  | .fiscal_year_end, v => { f with fiscal_year_end := v }
  | .fiscal_month_start, v => { f with fiscal_month_start := v }
  | .fiscal_month_end, v => { f with fiscal_month_end := v }
  | .agency, v => { f with agency := v }
  | .vendor, v => { f with vendor := v }
  | .appropriation_object, v => { f with appropriation_object := v }
  | .category, v => { f with category := v }
  | .procurement_method, v => { f with procurement_method := v }
  | .status, v => { f with status := v }
  | .subject, v => { f with subject := v }

/-- A filter dict carrying the literal dropdown marker `"All"`. -/
def allMarkerFilters : Filters := { agency := some (Value.vStr "All") }

/-- C4 counterexample: the literal `"All"` marker is truthy, so
`add_filters_to_query` does emit a predicate for it — the compiled WHERE
clause contains an agency equality and the params dict binds the value
`"All"` — refuting the claim that the compiler skips `"All"` (that marker is
stripped upstream by the UI layer, not by the compiler). -/
theorem all_marker_not_dropped_counterexample :
    (add_filters_to_query "Q" allMarkerFilters [] "Payment Information").1
      = "Q WHERE LOWER(p.agency_title) = LOWER(:agency)"
    ∧ (add_filters_to_query "Q" allMarkerFilters [] "Payment Information").2
      = [("agency", Value.vStr "All")]
    ∧ (add_filters_to_query "Q" allMarkerFilters [] "Payment Information").1 ≠ "Q" :=
  ⟨rfl, rfl, by decide⟩

/-- C4 as amended: a field whose supplied value is `None` or an empty list is
skipped entirely — compiling with it gives exactly the same query text and
params dict as compiling with the field absent — for every filter dict,
field, base query, initial params and table choice. The literal `"All"`
marker is not a compiler sentinel; it is excluded by the caller before
compilation. -/
theorem sentinel_none_or_empty_list_dropped (f : Filters) (fld : FilterField)
    (q : String) (p : List (String × Value)) (t : String)
    (h : f.getF fld = none ∨ f.getF fld = some (Value.vList [])) :
    add_filters_to_query q f p t = add_filters_to_query q (f.setF fld none) p t := by
  have key : ∀ r ∈ rulesFor t, r.guard f = r.guard (f.setF fld none) ∧
      (r.guard f = true → r.bind f = r.bind (f.setF fld none)) := by
    intro r hr
    have hmem : r ∈ paymentRules ∨ r ∈ contractRules := by
      unfold rulesFor at hr
      split at hr
      · exact Or.inl hr
      · split at hr
        · exact Or.inr hr
        · exact absurd hr (List.not_mem_nil r)
    rcases hmem with hm | hm
    · simp only [paymentRules, List.mem_cons, List.not_mem_nil, or_false] at hm
      rcases hm with rfl | rfl | rfl | rfl | rfl <;> cases fld <;>
        first
        | exact ⟨rfl, fun _ => rfl⟩
        | (simp only [Filters.getF] at h
           rcases h with h | h <;>
             simp [Filters.setF, getTruthy, Value.truthy, h])
    · simp only [contractRules, List.mem_cons, List.not_mem_nil, or_false] at hm
      rcases hm with rfl | rfl | rfl | rfl | rfl | rfl | rfl | rfl <;> cases fld <;>
        first
        | exact ⟨rfl, fun _ => rfl⟩
        | (simp only [Filters.getF] at h
           rcases h with h | h <;>
             simp [Filters.setF, getTruthy, Value.truthy, h])
  obtain ⟨hc, hb⟩ := rules_ext (rulesFor t) f (f.setF fld none) key
  rw [add_filters_to_query_eq, add_filters_to_query_eq, hc, hb]

/-- A filter dict where the vendor multi-select is an empty list. -/
def emptyVendorFilters : Filters :=
  { agency := some (Value.vStr "ACME"), vendor := some (Value.vList []) }

theorem witness_sentinel_dropped :
    (emptyVendorFilters.getF FilterField.vendor = none ∨
      emptyVendorFilters.getF FilterField.vendor = some (Value.vList []))
    ∧ add_filters_to_query "Q" emptyVendorFilters [] "Payment Information"
        = add_filters_to_query "Q" (emptyVendorFilters.setF FilterField.vendor none)
            [] "Payment Information" :=
  ⟨Or.inr rfl,
    sentinel_none_or_empty_list_dropped emptyVendorFilters FilterField.vendor
      "Q" [] "Payment Information" (Or.inr rfl)⟩

theorem count_condsOf (s : String) (rules : List FilterRule) (f : Filters) :
    (condsOf rules f).count s
      = (rules.map (fun r => if r.guard f then r.conds.count s else 0)).sum := by
  induction rules with
  | nil => simp [condsOf]
  | cons r rs ih =>
      simp only [condsOf, List.map_cons, List.sum_cons, List.count_append, ih]
      by_cases hg : r.guard f = true
      · simp [hg]
      · simp [hg]

/-- C5: for both tables, the compiled predicate list contains exactly one
fiscal-year `BETWEEN :fiscal_year_start AND :fiscal_year_end` condition when
both ends of the pair are present and truthy, and none at all otherwise (in
particular when only one end is present); likewise for the fiscal-month
range pair. -/
theorem range_pair_between_iff_both_ends (f : Filters) :
    (condsOf paymentRules f).count
        "p.fiscal_year BETWEEN :fiscal_year_start AND :fiscal_year_end"
      = (if getTruthy f.fiscal_year_start && getTruthy f.fiscal_year_end then 1 else 0)
    ∧ (condsOf paymentRules f).count
        "p.fiscal_month BETWEEN :fiscal_month_start AND :fiscal_month_end"
      = (if getTruthy f.fiscal_month_start && getTruthy f.fiscal_month_end then 1 else 0)
    ∧ (condsOf contractRules f).count
        "c.fiscal_year BETWEEN :fiscal_year_start AND :fiscal_year_end"
      = (if getTruthy f.fiscal_year_start && getTruthy f.fiscal_year_end then 1 else 0)
    ∧ (condsOf contractRules f).count
        "c.fm BETWEEN :fiscal_month_start AND :fiscal_month_end"
      = (if getTruthy f.fiscal_month_start && getTruthy f.fiscal_month_end then 1 else 0) := by
  refine ⟨?_, ?_, ?_, ?_⟩ <;>
    simp [count_condsOf, paymentRules, contractRules]

/-- A filter dict whose vendor multi-select holds the single entry
`"Dell Inc."`. -/
def dellFilters : Filters :=
  { vendor := some (Value.vList [Value.vStr "Dell Inc."]) }

/-- C6 counterexample: `filters={vendor: ["Dell Inc."]}` on the Contracts
table compiles to the case-insensitive equality
`LOWER(c.vendor) = LOWER(:vendor)` with the whole list bound as one
parameter; the query text contains no `IN` token at all, refuting the
claimed `IN (:v1, :v2, …)` compilation with one parameter per element. -/
theorem vendor_list_no_in_predicate_counterexample :
    (add_filters_to_query "Q" dellFilters [] "Contract Information").1
      = "Q WHERE LOWER(c.vendor) = LOWER(:vendor)"
    ∧ (add_filters_to_query "Q" dellFilters [] "Contract Information").2
      = [("vendor", Value.vList [Value.vStr "Dell Inc."])]
    ∧ splitHead "IN".toList
        ((add_filters_to_query "Q" dellFilters [] "Contract Information").1).toList
      = none :=
  ⟨rfl, rfl, rfl⟩

/-- C6 as amended: a list supplied for the vendor filter is bound whole as a
single `:vendor` parameter of a case-insensitive equality
`LOWER(c.vendor) = LOWER(:vendor)`; no `IN` predicate is generated; an empty
list is dropped as a falsy sentinel. -/
theorem vendor_list_binds_single_param (l : List Value) (q : String)
    (p : List (String × Value)) :
    add_filters_to_query q { vendor := some (Value.vList l) } p "Contract Information"
      = (if l.isEmpty then q else q ++ " WHERE " ++ "LOWER(c.vendor) = LOWER(:vendor)",
         if l.isEmpty then p else p ++ [("vendor", Value.vList l)]) := by
  have hrules : rulesFor "Contract Information" = contractRules := rfl
  rw [add_filters_to_query_eq, hrules]
  by_cases h : l.isEmpty <;>
    simp [condsOf, bindsOf, contractRules, getTruthy, Value.truthy, h]
  all_goals rfl

/-- A filter dict whose agency value is a digit string, coercible to an
integer. -/
def numericAgencyFilters : Filters := { agency := some (Value.vStr "123") }

/-- C7 counterexample: for the integer-coercible agency value `"123"` the
compiler still emits the case-insensitive string comparison and binds the
string unchanged — no integer coercion is ever attempted, refuting the
coerce-first-then-fall-back claim. -/
theorem no_integer_coercion_counterexample :
    (add_filters_to_query "Q" numericAgencyFilters [] "Payment Information").1
      = "Q WHERE LOWER(p.agency_title) = LOWER(:agency)"
    ∧ (add_filters_to_query "Q" numericAgencyFilters [] "Payment Information").2
      = [("agency", Value.vStr "123")]
    ∧ Value.vStr "123" ≠ Value.vInt 123 :=
  ⟨rfl, rfl, fun h => Value.noConfusion h⟩

/-- C7 as amended: no integer coercion is attempted anywhere in
`add_filters_to_query`: every truthy agency or vendor value compiles
directly to the case-insensitive comparison `LOWER(col) = LOWER(:key)` with
the supplied value bound unchanged, and the remaining scalar fields compile
to a plain equality `col = :key`, also binding the value unchanged. -/
theorem scalar_equality_no_coercion (v : Value) (q : String)
    (p : List (String × Value)) (hv : v.truthy = true) :
    add_filters_to_query q { agency := some v } p "Payment Information"
      = (q ++ " WHERE " ++ "LOWER(p.agency_title) = LOWER(:agency)",
         p ++ [("agency", v)])
    ∧ add_filters_to_query q { vendor := some v } p "Contract Information"
      = (q ++ " WHERE " ++ "LOWER(c.vendor) = LOWER(:vendor)",
         p ++ [("vendor", v)])
    ∧ add_filters_to_query q { category := some v } p "Contract Information"
      = (q ++ " WHERE " ++ "c.category = :category", p ++ [("category", v)]) := by
  have hp : rulesFor "Payment Information" = paymentRules := rfl
  have hc : rulesFor "Contract Information" = contractRules := rfl
  refine ⟨?_, ?_, ?_⟩ <;>
    rw [add_filters_to_query_eq] <;>
    first
    | rw [hp] | rw [hc]
  all_goals
    simp [condsOf, bindsOf, paymentRules, contractRules, getTruthy, hv]
  all_goals rfl

theorem witness_scalar_equality_no_coercion :
    (Value.vStr "123").truthy = true
    ∧ (add_filters_to_query "Q" { agency := some (Value.vStr "123") } []
          "Payment Information"
        = ("Q" ++ " WHERE " ++ "LOWER(p.agency_title) = LOWER(:agency)",
           [] ++ [("agency", Value.vStr "123")])
      ∧ add_filters_to_query "Q" { vendor := some (Value.vStr "123") } []
          "Contract Information"
        = ("Q" ++ " WHERE " ++ "LOWER(c.vendor) = LOWER(:vendor)",
           [] ++ [("vendor", Value.vStr "123")])
      ∧ add_filters_to_query "Q" { category := some (Value.vStr "123") } []
          "Contract Information"
        = ("Q" ++ " WHERE " ++ "c.category = :category",
           [] ++ [("category", Value.vStr "123")])) :=
  ⟨rfl, scalar_equality_no_coercion (Value.vStr "123") "Q" [] rfl⟩

/-- Modelled from the spec: the repository has no schema-resolution code, so
`SchemaResolver.resolve` is taken from §4.1 of the spec for comparison —
iterate the field's candidate column names in declared priority order and
return the first candidate present in the live schema. -/
def resolveSpec (candidates schema : List String) : Option String :=
  candidates.find? (fun c => schema.contains c)

/-- A filter dict selecting the agency `"ACME"`. -/
def acmeFilters : Filters := { agency := some (Value.vStr "ACME") }

/-- C8 counterexample: with the spec's candidate list
`[agency_title, agency_name]` and a live schema holding only `agency_name`,
the spec's resolution returns `agency_name`; but the code consults no schema
at all — the compiled text references the hardcoded `agency_title` (and
never `agency_name`), and the filter is emitted rather than dropped with a
warning. -/
theorem schema_fallback_counterexample :
    resolveSpec ["agency_title", "agency_name"] ["agency_name"] = some "agency_name"
    ∧ (add_filters_to_query "Q" acmeFilters [] "Payment Information").1
      = "Q WHERE LOWER(p.agency_title) = LOWER(:agency)"
    ∧ splitHead "agency_name".toList
        ((add_filters_to_query "Q" acmeFilters [] "Payment Information").1).toList
      = none
    ∧ splitHead "agency_title".toList
        ((add_filters_to_query "Q" acmeFilters [] "Payment Information").1).toList
      ≠ none :=
  ⟨rfl, rfl, rfl, by decide⟩

/-- C8 as amended: `add_filters_to_query` performs no schema-driven column
resolution: a truthy agency filter always compiles against the single
hardcoded column of the chosen table — `p.agency_title` for Payments and
`c.agency` for Contracts — independent of any live schema, and no
ignored-filter warning exists in its return value. -/
theorem hardcoded_column_no_schema_lookup (v : Value) (q : String)
    (p : List (String × Value)) (hv : v.truthy = true) :
    (add_filters_to_query q { agency := some v } p "Payment Information").1
      = q ++ " WHERE " ++ "LOWER(p.agency_title) = LOWER(:agency)"
    ∧ (add_filters_to_query q { agency := some v } p "Contract Information").1
      = q ++ " WHERE " ++ "LOWER(c.agency) = LOWER(:agency)" := by
  have hp : rulesFor "Payment Information" = paymentRules := rfl
  have hc : rulesFor "Contract Information" = contractRules := rfl
  constructor <;> rw [add_filters_to_query_eq] <;>
    first
    | rw [hp] | rw [hc]
  all_goals
    simp [condsOf, paymentRules, contractRules, getTruthy, hv]
  all_goals rfl

theorem witness_hardcoded_column_no_schema_lookup :
    (Value.vStr "ACME").truthy = true
    ∧ ((add_filters_to_query "Q" { agency := some (Value.vStr "ACME") } []
          "Payment Information").1
        = "Q" ++ " WHERE " ++ "LOWER(p.agency_title) = LOWER(:agency)"
      ∧ (add_filters_to_query "Q" { agency := some (Value.vStr "ACME") } []
          "Contract Information").1
        = "Q" ++ " WHERE " ++ "LOWER(c.agency) = LOWER(:agency)") :=
  ⟨rfl, hardcoded_column_no_schema_lookup (Value.vStr "ACME") "Q" [] rfl⟩

/-- The filter dict of the spec's Example 1: agency `"ACME"` with the
four-digit fiscal-year range 2022–2023. -/
def exampleOneFilters : Filters :=
  { fiscal_year_start := some (Value.vInt 2022),
    fiscal_year_end := some (Value.vInt 2023),
    agency := some (Value.vStr "ACME") }

/-- C9 counterexample: for Example 1 the bound fiscal-year endpoints are the
two-digit strings `"22"` and `"23"` produced by `str(...)[-2:]` slicing —
not the supplied four-digit years 2022 and 2023 — refuting that part of the
claim. -/
theorem fiscal_year_two_digit_counterexample :
    ((compiled exampleOneFilters "Payment Information").2).lookup "fiscal_year_start"
      = some (Value.vStr "22")
    ∧ ((compiled exampleOneFilters "Payment Information").2).lookup "fiscal_year_end"
      = some (Value.vStr "23")
    ∧ Value.vStr "22" ≠ Value.vInt 2022
    ∧ Value.vStr "23" ≠ Value.vInt 2023 :=
  ⟨rfl, rfl, fun h => Value.noConfusion h, fun h => Value.noConfusion h⟩

/-- C9 as amended: Example 1 on the Payments table compiles to the
predicates `fiscal_year BETWEEN :fiscal_year_start AND :fiscal_year_end AND
LOWER(p.agency_title) = LOWER(:agency)` with the range endpoints bound as
the two-digit strings `"22"` and `"23"` (not the four-digit years) and the
agency bound as `"ACME"`; at page 1 with page size 150 at most 150 rows are
returned and `has_more` is true iff the total number of matching rows
exceeds 150. -/
theorem example_one_compilation_and_pagination (α : Type) (store : List α) :
    compiled exampleOneFilters "Payment Information"
      = ((build_base_query "Payment Information").1 ++ " WHERE "
          ++ "p.fiscal_year BETWEEN :fiscal_year_start AND :fiscal_year_end AND LOWER(p.agency_title) = LOWER(:agency)",
         [("fiscal_year_start", Value.vStr "22"), ("fiscal_year_end", Value.vStr "23"),
          ("agency", Value.vStr "ACME")])
    ∧ (execute_query store 150 1).1.length ≤ 150
    ∧ ((execute_query store 150 1).2 = true ↔ 150 < store.length) := by
  refine ⟨rfl, execute_query_len_le store 150 1, ?_⟩
  have h := execute_query_hasMore store 150 1 le_rfl
  simpa using h

end QueryUtils
